import Mathlib

/-!
Shallow embedding of pcl::visualization::ImageViewer
(src/visualization/include/pcl/visualization/image_viewer.h).

The header declares the class and gives inline bodies for wasStopped,
resetStoppedFlag, the pointer-binding register overloads, and the two vtk
callback structs ExitCallback and ExitMainLoopTimerCallback; those are
translated directly from the source. The bodies of addLayer, removeLayer,
addCircle, addBox, markPoint and the show*Image conversions live in
image_viewer.cpp, which is not part of this repository snapshot; they are
modelled from the spec (each such definition carries a doc comment starting
with the words Modelled from the spec).

Machine doubles are modelled as rationals, unsigned integers as Nat,
signed ints as Int. vtk event ids use the numeric values of the vtkCommand
enum (ExitEvent = 11, TimerEvent = 25).
-/

namespace PCLImageViewer

/-- Numeric value of vtkCommand::ExitEvent in the external toolkit. -/
def vtkExitEvent : Nat := 11

/-- Numeric value of vtkCommand::TimerEvent in the external toolkit. -/
def vtkTimerEvent : Nat := 25

/-- A shape drawn onto a layer canvas. Coordinates are the unsigned int /
size_t arguments of the drawing operations; radii and colors are the double
arguments, modelled as rationals. -/
inductive Shape where
  | circle (x y : Nat) (radius : ℚ)
  | circleRGB (x y : Nat) (radius r g b : ℚ)
  | box (x_min x_max y_min y_max : Nat)
  | boxRGB (x_min x_max y_min y_max : Nat) (r g b : ℚ)
  | point (u v : Nat) (fg_r fg_g fg_b bg_r bg_g bg_b : Nat) (radius : ℚ)
deriving DecidableEq, Repr

/-- Internal structure describing a layer (image_viewer.h lines 439-445).
The vtkImageCanvasSource2D canvas is an external drawable surface; we model
it as the list of shapes drawn onto it, in drawing order. -/
structure Layer where
  canvas : List Shape
  layer_name : String
  opacity : ℚ
deriving DecidableEq, Repr

/-- LayerMap (image_viewer.h line 447): std::vector of Layer, kept in the
order the layers were pushed. -/
abbrev LayerMap : Type := List Layer

/-- LayerComparator (image_viewer.h lines 491-501): the find_if predicate
comparing a layer name against a fixed string. -/
def LayerComparator (str : String) (layer : Layer) : Bool :=
  layer.layer_name == str

/-- State of an ImageViewer. layer_map_ and stopped_ are the fields of the
class; image_viewer_ records whether the vtkImageViewer smart pointer is
non-null; interactor_terminated records whether TerminateApp was called on
the interactor (loop exit). -/
structure ImageViewerState where
  layer_map_ : List Layer
  stopped_ : Bool
  image_viewer_ : Bool
  interactor_terminated : Bool
deriving DecidableEq, Repr

/-- The state right after construction: empty registry, loop not stopped,
viewer widget allocated. -/
def initialState : ImageViewerState :=
  { layer_map_ := [], stopped_ := false, image_viewer_ := true,
    interactor_terminated := false }

/-- wasStopped (image_viewer.h line 302, inline in the source):
if image_viewer is non-null return stopped, else return true. -/
def wasStopped (s : ImageViewerState) : Bool :=
  if s.image_viewer_ then s.stopped_ else true

/-- resetStoppedFlag (image_viewer.h line 375, inline in the source):
if image_viewer is non-null set stopped to false. -/
def resetStoppedFlag (s : ImageViewerState) : ImageViewerState :=
  if s.image_viewer_ then { s with stopped_ := false } else s

/-- ExitCallback holds a pointer to its window (image_viewer.h lines
417-434); the Execute body is inline in the source. -/
def ExitCallback.Execute (event_id : Nat) (s : ImageViewerState) :
    ImageViewerState :=
  if event_id ≠ vtkExitEvent then s
  else { s with stopped_ := true, interactor_terminated := true }

/-- ExitMainLoopTimerCallback (image_viewer.h lines 396-416): stores the
timer id it is waiting for. -/
structure ExitMainLoopTimerCallback where
  right_timer_id : Int
deriving DecidableEq, Repr

/-- Execute of ExitMainLoopTimerCallback (inline in the source): ignore
anything that is not a TimerEvent; read the timer id from call_data and
ignore a non-matching id; otherwise terminate the interactor loop. -/
def ExitMainLoopTimerCallback.Execute (cb : ExitMainLoopTimerCallback)
    (event_id : Nat) (call_data : Int) (s : ImageViewerState) :
    ImageViewerState :=
  if event_id ≠ vtkTimerEvent then s
  else
    if call_data ≠ cb.right_timer_id then s
    else { s with interactor_terminated := true }

/-- Modelled from the spec: the body of the public bool-returning
ImageViewer::addLayer is in the missing image_viewer.cpp. The spec says
addLayer creates a new compositing surface if absent and is a no-op /
failure if the name exists; new layers are appended, so compositing order
follows insertion order. The layer is created with an empty canvas and the
callers opacity. -/
def addLayer (layer_id : String) (_width _height : Int) (opacity : ℚ)
    (s : ImageViewerState) : Bool × ImageViewerState :=
  if s.layer_map_.any (LayerComparator layer_id) then
    (false, s)
  else
    (true, { s with
             layer_map_ := s.layer_map_ ++
               [{ canvas := [], layer_name := layer_id, opacity := opacity }] })

/-- Modelled from the spec: the body of ImageViewer::removeLayer is in the
missing image_viewer.cpp. The spec says removeLayer removes the layer by
name, marking it for exclusion from the next composite pass; we model the
end result, the registry without the layers of that name. -/
def removeLayer (layer_id : String) (s : ImageViewerState) :
    ImageViewerState :=
  { s with
    layer_map_ := s.layer_map_.filter (fun l => ! LayerComparator layer_id l) }

/-- Modelled from the spec: drawing operations are parameterized by a
target layer name; a call naming a missing layer is a failure. This helper
finds the first layer matching LayerComparator, appends the shape to its
canvas and returns the updated registry, or none when no layer matches. -/
def drawIntoLayer (layer_id : String) (sh : Shape) :
    List Layer → Option (List Layer)
  | [] => none
  | l :: ls =>
    if LayerComparator layer_id l then
      some ({ l with canvas := l.canvas ++ [sh] } :: ls)
    else
      (drawIntoLayer layer_id sh ls).map (fun ls2 => l :: ls2)

/-- Modelled from the spec: a boolean drawing operation on the named layer,
returning false and leaving the state unchanged when the layer is missing
(spec, error handling: boolean returns signal failure, e.g. missing
layer). -/
def drawShape (layer_id : String) (sh : Shape) (s : ImageViewerState) :
    Bool × ImageViewerState :=
  match drawIntoLayer layer_id sh s.layer_map_ with
  | none => (false, s)
  | some lm => (true, { s with layer_map_ := lm })

/-- Modelled from the spec: addCircle (x, y, radius) overload, body in the
missing image_viewer.cpp. -/
def addCircle (x y : Nat) (radius : ℚ) (layer_id : String) (_opacity : ℚ)
    (s : ImageViewerState) : Bool × ImageViewerState :=
  drawShape layer_id (Shape.circle x y radius) s

/-- Modelled from the spec: addCircle overload with an rgb color, body in
the missing image_viewer.cpp. -/
def addCircleRGB (x y : Nat) (radius r g b : ℚ) (layer_id : String)
    (_opacity : ℚ) (s : ImageViewerState) : Bool × ImageViewerState :=
  drawShape layer_id (Shape.circleRGB x y radius r g b) s

/-- Modelled from the spec: addBox (x_min, x_max, y_min, y_max) overload,
body in the missing image_viewer.cpp. -/
def addBox (x_min x_max y_min y_max : Nat) (layer_id : String)
    (_opacity : ℚ) (s : ImageViewerState) : Bool × ImageViewerState :=
  drawShape layer_id (Shape.box x_min x_max y_min y_max) s

/-- Modelled from the spec: addBox overload with an rgb color, body in the
missing image_viewer.cpp. -/
def addBoxRGB (x_min x_max y_min y_max : Nat) (r g b : ℚ)
    (layer_id : String) (_opacity : ℚ) (s : ImageViewerState) :
    Bool × ImageViewerState :=
  drawShape layer_id (Shape.boxRGB x_min x_max y_min y_max r g b) s

/-- Modelled from the spec: markPoint, body in the missing
image_viewer.cpp. It returns void in the source; the drawing itself is the
same named-layer operation as the other drawing helpers. -/
def markPoint (u v : Nat) (fg_r fg_g fg_b bg_r bg_g bg_b : Nat)
    (radius : ℚ) (layer_id : String) (_opacity : ℚ)
    (s : ImageViewerState) : ImageViewerState :=
  (drawShape layer_id (Shape.point u v fg_r fg_g fg_b bg_r bg_g bg_b radius) s).2

/-- Default layer argument of markPoint (image_viewer.h line 193). -/
def markPoint_default_layer_id : String := "points"

/-- Default layer argument of addCircle (image_viewer.h lines 313, 328). -/
def addCircle_default_layer_id : String := "circles"

/-- Default layer argument of addBox (image_viewer.h lines 340, 356). -/
def addBox_default_layer_id : String := "boxes"

/-- markPoint called without a layer argument: the C++ default argument
fills in the implicit default layer name. -/
def markPointDefault (u v : Nat) (fg_r fg_g fg_b bg_r bg_g bg_b : Nat)
    (radius : ℚ) (s : ImageViewerState) : ImageViewerState :=
  markPoint u v fg_r fg_g fg_b bg_r bg_g bg_b radius
    markPoint_default_layer_id 1 s

/-- addCircle called without a layer argument. -/
def addCircleDefault (x y : Nat) (radius : ℚ) (s : ImageViewerState) :
    Bool × ImageViewerState :=
  addCircle x y radius addCircle_default_layer_id (1 / 2) s

/-- addBox called without a layer argument. -/
def addBoxDefault (x_min x_max y_min y_max : Nat) (s : ImageViewerState) :
    Bool × ImageViewerState :=
  addBox x_min x_max y_min y_max addBox_default_layer_id (1 / 2) s

/-- An operation of the registry-mutating public API; the show*Image
operations create their layer through addLayer (spec, data model: layers
are created by addLayer, destroyed by removeLayer), so the trace alphabet
below covers every way the registry changes. -/
inductive Op where
  | opAddLayer (layer_id : String) (width height : Int) (opacity : ℚ)
  | opRemoveLayer (layer_id : String)
  | opAddCircle (x y : Nat) (radius : ℚ) (layer_id : String) (opacity : ℚ)
  | opAddCircleRGB (x y : Nat) (radius r g b : ℚ) (layer_id : String)
      (opacity : ℚ)
  | opAddBox (x_min x_max y_min y_max : Nat) (layer_id : String)
      (opacity : ℚ)
  | opAddBoxRGB (x_min x_max y_min y_max : Nat) (r g b : ℚ)
      (layer_id : String) (opacity : ℚ)
  | opMarkPoint (u v : Nat) (fg_r fg_g fg_b bg_r bg_g bg_b : Nat)
      (radius : ℚ) (layer_id : String) (opacity : ℚ)
deriving DecidableEq, Repr

/-- State transition of a single API operation. -/
def applyOp (op : Op) (s : ImageViewerState) : ImageViewerState :=
  match op with
  | .opAddLayer layer_id w h o => (addLayer layer_id w h o s).2
  | .opRemoveLayer layer_id => removeLayer layer_id s
  | .opAddCircle x y radius layer_id o => (addCircle x y radius layer_id o s).2
  | .opAddCircleRGB x y radius r g b layer_id o =>
      (addCircleRGB x y radius r g b layer_id o s).2
  | .opAddBox x0 x1 y0 y1 layer_id o => (addBox x0 x1 y0 y1 layer_id o s).2
  | .opAddBoxRGB x0 x1 y0 y1 r g b layer_id o =>
      (addBoxRGB x0 x1 y0 y1 r g b layer_id o s).2
  | .opMarkPoint u v a b c d e f radius layer_id o =>
      markPoint u v a b c d e f radius layer_id o s

/-- Run a trace of API operations from a state. -/
def runTrace (ops : List Op) (s : ImageViewerState) : ImageViewerState :=
  match ops with
  | [] => s
  | op :: rest => runTrace rest (applyOp op s)

/-- The names of the registered layers, in registry (compositing) order:
the composite pass hands the vector of layers to the blend stage in vector
order. -/
def compositeOrder (s : ImageViewerState) : List String :=
  s.layer_map_.map Layer.layer_name

/-- The chronological sequence of successful layer insertions along a
trace: each addLayer call that finds the name absent contributes its name,
in call order. -/
def insertedNames (s : ImageViewerState) : List Op → List String
  | [] => []
  | op :: rest =>
    (match op with
     | .opAddLayer layer_id _ _ _ =>
        if s.layer_map_.any (LayerComparator layer_id) then []
        else [layer_id]
     | _ => []) ++ insertedNames (applyOp op s) rest

/-- Modelled from the spec: the pixel conversion of showFloatImage (body in
the missing image_viewer.cpp) clamps each float pixel to the closed range
between min_value and max_value. Floats are modelled as rationals. -/
def clampFloatPixel (min_value max_value v : ℚ) : ℚ :=
  if v < min_value then min_value
  else if max_value < v then max_value
  else v

/-- Modelled from the spec: the pixel conversion of showShortImage (body in
the missing image_viewer.cpp) clamps each unsigned short pixel to the
closed range between min_value and max_value. -/
def clampShortPixel (min_value max_value v : Nat) : Nat :=
  if v < min_value then min_value
  else if max_value < v then max_value
  else v

/-- Modelled from the spec: after clamping, the 32-bit float buffer is
scaled onto the 8-bit range before becoming an RGB base image (division by
zero in ℚ yields 0, covering the degenerate min = max buffer). -/
def scaleTo8bit (min_value max_value c : ℚ) : ℚ :=
  (c - min_value) / (max_value - min_value) * 255

/-- Modelled from the spec: an 8-bit RGB pixel from one scaled intensity;
grayscale replicates the channel, the false-color branch is an arbitrary
colormap of the same intensity, supplied as a parameter. -/
def pixelToRGB (colormap : ℚ → ℚ × ℚ × ℚ) (grayscale : Bool) (c : ℚ) :
    ℚ × ℚ × ℚ :=
  if grayscale then (c, c, c) else colormap c

/-- Modelled from the spec: showFloatImage converts its float buffer to an
8-bit RGB base image, clamping every pixel to the min/max range first. -/
def showFloatImageConvert (colormap : ℚ → ℚ × ℚ × ℚ) (grayscale : Bool)
    (min_value max_value : ℚ) (data : List ℚ) : List (ℚ × ℚ × ℚ) :=
  data.map (fun v =>
    pixelToRGB colormap grayscale
      (scaleTo8bit min_value max_value (clampFloatPixel min_value max_value v)))

/-- Modelled from the spec: showShortImage converts its unsigned short
buffer to an 8-bit RGB base image, clamping every pixel to the min/max
range first; the clamped Nat is scaled as a rational. -/
def showShortImageConvert (colormap : ℚ → ℚ × ℚ × ℚ) (grayscale : Bool)
    (min_value max_value : Nat) (data : List Nat) : List (ℚ × ℚ × ℚ) :=
  data.map (fun v =>
    pixelToRGB colormap grayscale
      (scaleTo8bit (min_value : ℚ) (max_value : ℚ)
        ((clampShortPixel min_value max_value v : ℚ))))

/-- A keyboard event object as published to subscribers; its fields live in
a header outside this snapshot, so it is kept as an abstract payload. -/
structure KeyboardEvent where
  payload : Nat
deriving DecidableEq, Repr

/-- A mouse event object as published to subscribers. -/
structure MouseEvent where
  payload : Nat
deriving DecidableEq, Repr

/-- Modelled from the spec: a boost signals2 signal is an ordered list of
subscribed handlers; connecting appends, and publishing an event invokes
every handler synchronously in subscription order. E is the event type, A
the result a handler produces, C the cookie type. -/
abbrev Signal (E A : Type) : Type := List (E → A)

/-- Connecting a handler to a signal appends it to the subscriber list. -/
def Signal.connect {E A : Type} (sig : Signal E A) (cb : E → A) :
    Signal E A :=
  sig ++ [cb]

/-- Modelled from the spec: publishing an event invokes each subscriber on
the event, synchronously and in subscription (toolkit) order; the list of
handler results records the invocations in delivery order. -/
def Signal.publish {E A : Type} (sig : Signal E A) (e : E) : List A :=
  sig.map (fun f => f e)

/-- registerKeyboardCallback for a plain function pointer with a cookie
(image_viewer.h lines 221-226, inline in the source): it registers the
boost function binding the cookie as the second argument of the callback. -/
def registerKeyboardCallbackPtr {A C : Type}
    (keyboard_signal_ : Signal KeyboardEvent A)
    (callback : KeyboardEvent → C → A) (cookie : C) :
    Signal KeyboardEvent A :=
  keyboard_signal_.connect (fun e => callback e cookie)

/-- registerMouseCallback for a plain function pointer with a cookie
(image_viewer.h lines 253-258, inline in the source). -/
def registerMouseCallbackPtr {A C : Type}
    (mouse_signal_ : Signal MouseEvent A)
    (callback : MouseEvent → C → A) (cookie : C) :
    Signal MouseEvent A :=
  mouse_signal_.connect (fun e => callback e cookie)

/-- The behaviour the spec ascribes to registering the bound boost
function directly: the same subscriber list extension with the handler
obtained by binding the cookie as the second argument. Stated from the
spec wording to compare against the source definitions above. -/
def registerCallbackBoundSpec {E A C : Type} (sig : Signal E A)
    (callback : E → C → A) (cookie : C) : Signal E A :=
  sig.connect (fun e => callback e cookie)

/-- Drawing decomposition: lm2 is lm with the shape appended to the canvas
of the first layer named layer_id, every earlier layer having a different
name. -/
def drawsInto (layer_id : String) (sh : Shape) (lm lm2 : List Layer) :
    Prop :=
  ∃ pre l0 post,
    lm = pre ++ l0 :: post ∧
    (∀ l ∈ pre, l.layer_name ≠ layer_id) ∧
    l0.layer_name = layer_id ∧
    lm2 = pre ++ { l0 with canvas := l0.canvas ++ [sh] } :: post

theorem layerComparator_eq_true {str : String} {l : Layer} :
    LayerComparator str l = true ↔ l.layer_name = str := by
  simp [LayerComparator]

theorem any_layerComparator_iff (lid : String) (lm : List Layer) :
    lm.any (LayerComparator lid) = true ↔ lid ∈ lm.map Layer.layer_name := by
  constructor
  · intro h
    obtain ⟨l, hl, he⟩ := List.any_eq_true.mp h
    exact List.mem_map.mpr ⟨l, hl, layerComparator_eq_true.mp he⟩
  · intro h
    obtain ⟨l, hl, he⟩ := List.mem_map.mp h
    exact List.any_eq_true.mpr ⟨l, hl, layerComparator_eq_true.mpr he⟩

theorem drawIntoLayer_isSome (lid : String) (sh : Shape) :
    ∀ lm : List Layer,
      (drawIntoLayer lid sh lm).isSome = lm.any (LayerComparator lid)
  | [] => rfl
  | l :: ls => by
    by_cases h : LayerComparator lid l = true
    · simp [drawIntoLayer, h]
    · simp only [Bool.not_eq_true] at h
      simp [drawIntoLayer, h, drawIntoLayer_isSome lid sh ls]

theorem drawIntoLayer_names (lid : String) (sh : Shape) :
    ∀ lm lm2, drawIntoLayer lid sh lm = some lm2 →
      lm2.map Layer.layer_name = lm.map Layer.layer_name
  | [], lm2, h => by simp [drawIntoLayer] at h
  | l :: ls, lm2, h => by
    by_cases hc : LayerComparator lid l = true
    · simp only [drawIntoLayer, hc, if_pos, Option.some.injEq] at h
      subst h; simp
    · simp only [Bool.not_eq_true] at hc
      simp only [drawIntoLayer, hc] at h
      cases hrec : drawIntoLayer lid sh ls with
      | none => rw [hrec] at h; simp at h
      | some ls2 =>
        rw [hrec] at h
        have h2 : lm2 = l :: ls2 := by simpa using h.symm
        subst h2
        simp [drawIntoLayer_names lid sh ls ls2 hrec]

theorem drawIntoLayer_drawsInto (lid : String) (sh : Shape) :
    ∀ lm lm2, drawIntoLayer lid sh lm = some lm2 → drawsInto lid sh lm lm2
  | [], lm2, h => by simp [drawIntoLayer] at h
  | l :: ls, lm2, h => by
    by_cases hc : LayerComparator lid l = true
    · simp only [drawIntoLayer, hc, if_pos, Option.some.injEq] at h
      exact ⟨[], l, ls, by simp, by simp, layerComparator_eq_true.mp hc,
        by simp [h.symm]⟩
    · have hc2 : l.layer_name ≠ lid := by
        intro he
        exact hc (layerComparator_eq_true.mpr he)
      simp only [Bool.not_eq_true] at hc
      simp only [drawIntoLayer, hc] at h
      cases hrec : drawIntoLayer lid sh ls with
      | none => rw [hrec] at h; simp at h
      | some ls2 =>
        rw [hrec] at h
        have h5 : lm2 = l :: ls2 := by simpa using h.symm
        obtain ⟨pre, l0, post, h1, h2, h3, h4⟩ :=
          drawIntoLayer_drawsInto lid sh ls ls2 hrec
        refine ⟨l :: pre, l0, post, by simp [h1], ?_, h3, by simp [h5, h4]⟩
        intro x hx
        rcases List.mem_cons.mp hx with hx | hx
        · exact hx ▸ hc2
        · exact h2 x hx

theorem drawIntoLayer_opacities (lid : String) (sh : Shape) :
    ∀ lm lm2, drawIntoLayer lid sh lm = some lm2 →
      ∀ l2 ∈ lm2, ∃ l ∈ lm, l2.opacity = l.opacity := by
  intro lm lm2 h l2 hl2
  obtain ⟨pre, l0, post, h1, _, _, h4⟩ := drawIntoLayer_drawsInto lid sh lm lm2 h
  subst h1 h4
  rcases List.mem_append.mp hl2 with hp | hp
  · exact ⟨l2, List.mem_append.mpr (Or.inl hp), rfl⟩
  · rcases List.mem_cons.mp hp with hp | hp
    · exact ⟨l0, List.mem_append.mpr (Or.inr (List.mem_cons_self l0 post)),
        by simp [hp]⟩
    · exact ⟨l2, List.mem_append.mpr (Or.inr (List.mem_cons_of_mem l0 hp)), rfl⟩

theorem drawShape_fst (lid : String) (sh : Shape) (s : ImageViewerState) :
    (drawShape lid sh s).1 = s.layer_map_.any (LayerComparator lid) := by
  have h := drawIntoLayer_isSome lid sh s.layer_map_
  cases hopt : drawIntoLayer lid sh s.layer_map_ with
  | none => rw [hopt] at h; simp only [drawShape, hopt]; simpa using h.symm
  | some lm => rw [hopt] at h; simp only [drawShape, hopt]; simpa using h.symm

theorem drawShape_of_none {lid : String} {sh : Shape} {s : ImageViewerState}
    (h : drawIntoLayer lid sh s.layer_map_ = none) :
    drawShape lid sh s = (false, s) := by
  simp [drawShape, h]

theorem drawShape_layer_names (lid : String) (sh : Shape)
    (s : ImageViewerState) :
    (drawShape lid sh s).2.layer_map_.map Layer.layer_name =
      s.layer_map_.map Layer.layer_name := by
  cases hopt : drawIntoLayer lid sh s.layer_map_ with
  | none => simp [drawShape, hopt]
  | some lm => simp [drawShape, hopt, drawIntoLayer_names lid sh _ lm hopt]

/-- Names a single operation inserts into the registry (nonempty only for
a successful addLayer). -/
def stepInserted (op : Op) (s : ImageViewerState) : List String :=
  match op with
  | .opAddLayer layer_id _ _ _ =>
      if s.layer_map_.any (LayerComparator layer_id) then [] else [layer_id]
  | _ => []

theorem insertedNames_cons (op : Op) (ops : List Op)
    (s : ImageViewerState) :
    insertedNames s (op :: ops) =
      stepInserted op s ++ insertedNames (applyOp op s) ops := by
  cases op <;> rfl

theorem applyOp_step (op : Op) (s : ImageViewerState)
    (h : (compositeOrder s).Nodup) :
    (compositeOrder (applyOp op s)).Nodup ∧
    List.Sublist (compositeOrder (applyOp op s))
      (compositeOrder s ++ stepInserted op s) := by
  cases op with
  | opAddLayer lid w hh o =>
    cases hc : s.layer_map_.any (LayerComparator lid) with
    | true =>
      have hs : applyOp (.opAddLayer lid w hh o) s = s := by
        simp [applyOp, addLayer, hc]
      rw [hs]
      exact ⟨h, by simp [stepInserted, hc]⟩
    | false =>
      have hs : compositeOrder (applyOp (.opAddLayer lid w hh o) s) =
          compositeOrder s ++ [lid] := by
        simp [applyOp, addLayer, hc, compositeOrder]
      have hnotmem : lid ∉ compositeOrder s := by
        intro hmem
        rw [(any_layerComparator_iff lid s.layer_map_).mpr hmem] at hc
        exact Bool.true_eq_false.mp hc
      constructor
      · rw [hs]
        exact h.append (List.nodup_singleton lid)
          (by simpa [List.disjoint_singleton] using hnotmem)
      · rw [hs]
        simp [stepInserted, hc]
  | opRemoveLayer lid =>
    have hsub : List.Sublist (compositeOrder (applyOp (.opRemoveLayer lid) s))
        (compositeOrder s) := by
      simpa [applyOp, removeLayer, compositeOrder] using
        (List.filter_sublist s.layer_map_ (p := fun l => ! LayerComparator lid l)).map
          Layer.layer_name
    exact ⟨h.sublist hsub, by simpa [stepInserted] using hsub⟩
  | opAddCircle x y radius lid o =>
    have he : compositeOrder (applyOp (.opAddCircle x y radius lid o) s) =
        compositeOrder s := by
      simpa [applyOp, addCircle, compositeOrder] using
        drawShape_layer_names lid (Shape.circle x y radius) s
    exact ⟨he ▸ h, by simp [he, stepInserted]⟩
  | opAddCircleRGB x y radius r g b lid o =>
    have he : compositeOrder
        (applyOp (.opAddCircleRGB x y radius r g b lid o) s) =
        compositeOrder s := by
      simpa [applyOp, addCircleRGB, compositeOrder] using
        drawShape_layer_names lid (Shape.circleRGB x y radius r g b) s
    exact ⟨he ▸ h, by simp [he, stepInserted]⟩
  | opAddBox x0 x1 y0 y1 lid o =>
    have he : compositeOrder (applyOp (.opAddBox x0 x1 y0 y1 lid o) s) =
        compositeOrder s := by
      simpa [applyOp, addBox, compositeOrder] using
        drawShape_layer_names lid (Shape.box x0 x1 y0 y1) s
    exact ⟨he ▸ h, by simp [he, stepInserted]⟩
  | opAddBoxRGB x0 x1 y0 y1 r g b lid o =>
    have he : compositeOrder
        (applyOp (.opAddBoxRGB x0 x1 y0 y1 r g b lid o) s) =
        compositeOrder s := by
      simpa [applyOp, addBoxRGB, compositeOrder] using
        drawShape_layer_names lid (Shape.boxRGB x0 x1 y0 y1 r g b) s
    exact ⟨he ▸ h, by simp [he, stepInserted]⟩
  | opMarkPoint u v a1 a2 a3 b1 b2 b3 radius lid o =>
    have he : compositeOrder
        (applyOp (.opMarkPoint u v a1 a2 a3 b1 b2 b3 radius lid o) s) =
        compositeOrder s := by
      simpa [applyOp, markPoint, compositeOrder] using
        drawShape_layer_names lid
          (Shape.point u v a1 a2 a3 b1 b2 b3 radius) s
    exact ⟨he ▸ h, by simp [he, stepInserted]⟩

theorem runTrace_registry_invariant :
    ∀ (ops : List Op) (s : ImageViewerState),
      (compositeOrder s).Nodup →
      (compositeOrder (runTrace ops s)).Nodup ∧
      List.Sublist (compositeOrder (runTrace ops s))
        (compositeOrder s ++ insertedNames s ops)
  | [], s, h => ⟨h, by simp [runTrace, insertedNames]⟩
  | op :: ops, s, h => by
    have hstep := applyOp_step op s h
    have hih := runTrace_registry_invariant ops (applyOp op s) hstep.1
    refine ⟨hih.1, ?_⟩
    rw [show runTrace (op :: ops) s = runTrace ops (applyOp op s) from rfl,
      insertedNames_cons, ← List.append_assoc]
    exact hih.2.trans (hstep.2.append (List.Sublist.refl _))

theorem drawShape_opacities (lid : String) (sh : Shape)
    (s : ImageViewerState) :
    ∀ l2 ∈ (drawShape lid sh s).2.layer_map_,
      ∃ l ∈ s.layer_map_, l2.opacity = l.opacity := by
  cases hopt : drawIntoLayer lid sh s.layer_map_ with
  | none =>
    intro l2 h2
    refine ⟨l2, ?_, rfl⟩
    simpa [drawShape, hopt] using h2
  | some lm =>
    intro l2 h2
    exact drawIntoLayer_opacities lid sh s.layer_map_ lm hopt l2
      (by simpa [drawShape, hopt] using h2)

theorem applyOp_opacity (op : Op) (s : ImageViewerState)
    (h : ∀ l ∈ s.layer_map_, 0 ≤ l.opacity ∧ l.opacity ≤ 1)
    (hop : ∀ (lid : String) (w hh : Int) (o : ℚ),
      op = Op.opAddLayer lid w hh o → 0 ≤ o ∧ o ≤ 1) :
    ∀ l ∈ (applyOp op s).layer_map_, 0 ≤ l.opacity ∧ l.opacity ≤ 1 := by
  cases op with
  | opAddLayer lid w hh o =>
    cases hc : s.layer_map_.any (LayerComparator lid) with
    | true =>
      intro l hl
      exact h l (by simpa [applyOp, addLayer, hc] using hl)
    | false =>
      intro l hl
      rw [show (applyOp (.opAddLayer lid w hh o) s).layer_map_ =
          s.layer_map_ ++ [⟨[], lid, o⟩] by simp [applyOp, addLayer, hc]] at hl
      rcases List.mem_append.mp hl with hl | hl
      · exact h l hl
      · have hl2 : l = Layer.mk [] lid o := by simpa using hl
        rw [hl2]
        exact hop lid w hh o rfl
  | opRemoveLayer lid =>
    intro l hl
    simp only [applyOp, removeLayer] at hl
    exact h l (List.mem_of_mem_filter hl)
  | opAddCircle x y radius lid o =>
    intro l hl
    obtain ⟨l0, hl0, he⟩ := drawShape_opacities lid (Shape.circle x y radius) s l
      (by simpa [applyOp, addCircle] using hl)
    exact he ▸ h l0 hl0
  | opAddCircleRGB x y radius r g b lid o =>
    intro l hl
    obtain ⟨l0, hl0, he⟩ := drawShape_opacities lid
      (Shape.circleRGB x y radius r g b) s l
      (by simpa [applyOp, addCircleRGB] using hl)
    exact he ▸ h l0 hl0
  | opAddBox x0 x1 y0 y1 lid o =>
    intro l hl
    obtain ⟨l0, hl0, he⟩ := drawShape_opacities lid
      (Shape.box x0 x1 y0 y1) s l
      (by simpa [applyOp, addBox] using hl)
    exact he ▸ h l0 hl0
  | opAddBoxRGB x0 x1 y0 y1 r g b lid o =>
    intro l hl
    obtain ⟨l0, hl0, he⟩ := drawShape_opacities lid
      (Shape.boxRGB x0 x1 y0 y1 r g b) s l
      (by simpa [applyOp, addBoxRGB] using hl)
    exact he ▸ h l0 hl0
  | opMarkPoint u v a1 a2 a3 b1 b2 b3 radius lid o =>
    intro l hl
    obtain ⟨l0, hl0, he⟩ := drawShape_opacities lid
      (Shape.point u v a1 a2 a3 b1 b2 b3 radius) s l
      (by simpa [applyOp, markPoint] using hl)
    exact he ▸ h l0 hl0

theorem runTrace_opacity :
    ∀ (ops : List Op) (s : ImageViewerState),
      (∀ l ∈ s.layer_map_, 0 ≤ l.opacity ∧ l.opacity ≤ 1) →
      (∀ (lid : String) (w hh : Int) (o : ℚ),
        Op.opAddLayer lid w hh o ∈ ops → 0 ≤ o ∧ o ≤ 1) →
      ∀ l ∈ (runTrace ops s).layer_map_, 0 ≤ l.opacity ∧ l.opacity ≤ 1
  | [], s, h, _ => h
  | op :: ops, s, h, hops => by
    have hstep := applyOp_opacity op s h
      (fun lid w hh o he => hops lid w hh o (he ▸ List.mem_cons_self op ops))
    exact runTrace_opacity ops (applyOp op s) hstep
      (fun lid w hh o hmem => hops lid w hh o (List.mem_cons_of_mem op hmem))

theorem drawShape_failure_unchanged {lid : String} {sh : Shape}
    {s : ImageViewerState} (hf : (drawShape lid sh s).1 = false) :
    (drawShape lid sh s).2 = s := by
  cases hopt : drawIntoLayer lid sh s.layer_map_ with
  | none => simp [drawShape, hopt]
  | some lm =>
    exfalso
    rw [show (drawShape lid sh s).1 = true by simp [drawShape, hopt]] at hf
    exact Bool.true_eq_false.mp hf

theorem drawShape_success_iff (lid : String) (sh : Shape)
    (s : ImageViewerState) :
    ((drawShape lid sh s).1 = true ↔ lid ∈ compositeOrder s) ∧
    ((drawShape lid sh s).1 = false → (drawShape lid sh s).2 = s) := by
  constructor
  · rw [drawShape_fst]
    exact any_layerComparator_iff lid s.layer_map_
  · exact fun hf => drawShape_failure_unchanged hf

theorem drawShape_drawsInto {lid : String} {sh : Shape}
    {s : ImageViewerState} (h : lid ∈ compositeOrder s) :
    drawsInto lid sh s.layer_map_ (drawShape lid sh s).2.layer_map_ := by
  have hany : s.layer_map_.any (LayerComparator lid) = true :=
    (any_layerComparator_iff lid s.layer_map_).mpr h
  have hsome : (drawIntoLayer lid sh s.layer_map_).isSome = true := by
    rw [drawIntoLayer_isSome]; exact hany
  cases hopt : drawIntoLayer lid sh s.layer_map_ with
  | none => rw [hopt] at hsome; simp at hsome
  | some lm =>
    have hd := drawIntoLayer_drawsInto lid sh s.layer_map_ lm hopt
    simpa [drawShape, hopt] using hd

theorem clampFloatPixel_spec (fmin fmax v : ℚ) (hf : fmin ≤ fmax) :
    (fmin ≤ clampFloatPixel fmin fmax v ∧ clampFloatPixel fmin fmax v ≤ fmax) ∧
    (v < fmin → clampFloatPixel fmin fmax v = fmin) ∧
    (fmax < v → clampFloatPixel fmin fmax v = fmax) ∧
    (fmin ≤ v → v ≤ fmax → clampFloatPixel fmin fmax v = v) := by
  refine ⟨?_, ?_, ?_, ?_⟩
  · unfold clampFloatPixel
    split_ifs with h1 h2
    · exact ⟨le_refl _, hf⟩
    · exact ⟨hf, le_refl _⟩
    · exact ⟨le_of_not_lt h1, le_of_not_lt h2⟩
  · intro h
    simp [clampFloatPixel, h]
  · intro h
    have h1 : ¬ v < fmin := not_lt.mpr (hf.trans h.le)
    simp [clampFloatPixel, h1, h]
  · intro h1 h2
    have h3 : ¬ v < fmin := not_lt.mpr h1
    have h4 : ¬ fmax < v := not_lt.mpr h2
    simp [clampFloatPixel, h3, h4]

theorem clampShortPixel_spec (smin smax v : Nat) (hs : smin ≤ smax) :
    (smin ≤ clampShortPixel smin smax v ∧ clampShortPixel smin smax v ≤ smax) ∧
    (v < smin → clampShortPixel smin smax v = smin) ∧
    (smax < v → clampShortPixel smin smax v = smax) ∧
    (smin ≤ v → v ≤ smax → clampShortPixel smin smax v = v) := by
  refine ⟨?_, ?_, ?_, ?_⟩
  · unfold clampShortPixel
    split_ifs with h1 h2
    · exact ⟨le_refl _, hs⟩
    · exact ⟨hs, le_refl _⟩
    · exact ⟨le_of_not_lt h1, le_of_not_lt h2⟩
  · intro h
    simp [clampShortPixel, h]
  · intro h
    have h1 : ¬ v < smin := not_lt.mpr (hs.trans h.le)
    simp [clampShortPixel, h1, h]
  · intro h1 h2
    have h3 : ¬ v < smin := not_lt.mpr h1
    have h4 : ¬ smax < v := not_lt.mpr h2
    simp [clampShortPixel, h3, h4]

/-- C1: in every reachable state of an ImageViewer the layer registry
contains no two layers with the same layer_name, and the order in which
layers are composited onto the base image (the registry order handed to the
blend stage) equals the order in which addLayer inserted them: the name
sequence of the registry is a subsequence of the chronological insertion
sequence. -/
theorem layer_registry_unique_and_insertion_ordered (ops : List Op) :
    (compositeOrder (runTrace ops initialState)).Nodup ∧
    List.Sublist (compositeOrder (runTrace ops initialState))
      (insertedNames initialState ops) := by
  have h := runTrace_registry_invariant ops initialState
    (by simp [compositeOrder, initialState])
  exact ⟨h.1, by simpa [compositeOrder, initialState] using h.2⟩

/-- C2: addLayer creates a fresh layer (appended to the registry, with an
empty canvas and the callers opacity) when no layer of that name exists;
when one exists it leaves the whole state unchanged and returns false. -/
theorem addLayer_creates_fresh_or_rejects_duplicate (s : ImageViewerState)
    (layer_id : String) (w h : Int) (o : ℚ) :
    (s.layer_map_.any (LayerComparator layer_id) = false →
      addLayer layer_id w h o s =
        (true, { s with layer_map_ := s.layer_map_ ++ [⟨[], layer_id, o⟩] })) ∧
    (s.layer_map_.any (LayerComparator layer_id) = true →
      addLayer layer_id w h o s = (false, s)) := by
  constructor
  · intro hc
    simp [addLayer, hc]
  · intro hc
    simp [addLayer, hc]

/-- Witness for C2: adding a name to the empty registry succeeds and
appends the layer; re-adding the same name fails and changes nothing. -/
theorem addLayer_creates_fresh_or_rejects_duplicate_witness :
    addLayer "image" 640 480 1 initialState =
      (true, { initialState with
               layer_map_ := initialState.layer_map_ ++ [⟨[], "image", 1⟩] }) ∧
    addLayer "a" 1 1 (1 / 2) (runTrace [Op.opAddLayer "a" 1 1 1] initialState) =
      (false, runTrace [Op.opAddLayer "a" 1 1 1] initialState) :=
  ⟨(addLayer_creates_fresh_or_rejects_duplicate initialState "image" 640 480 1).1
      (by decide),
   (addLayer_creates_fresh_or_rejects_duplicate
      (runTrace [Op.opAddLayer "a" 1 1 1] initialState) "a" 1 1 (1 / 2)).2
      (by decide)⟩

/-- C3: each boolean drawing operation returns true exactly when the named
layer exists in the registry (the drawing succeeded), and on a false return
the state is unchanged (the call failed). -/
theorem drawing_bool_returns_signal_success (x y x0 x1 y0 y1 : Nat)
    (radius r g b o : ℚ) (layer_id : String) (s : ImageViewerState) :
    (((addCircle x y radius layer_id o s).1 = true ↔
        layer_id ∈ compositeOrder s) ∧
      ((addCircle x y radius layer_id o s).1 = false →
        (addCircle x y radius layer_id o s).2 = s)) ∧
    (((addCircleRGB x y radius r g b layer_id o s).1 = true ↔
        layer_id ∈ compositeOrder s) ∧
      ((addCircleRGB x y radius r g b layer_id o s).1 = false →
        (addCircleRGB x y radius r g b layer_id o s).2 = s)) ∧
    (((addBox x0 x1 y0 y1 layer_id o s).1 = true ↔
        layer_id ∈ compositeOrder s) ∧
      ((addBox x0 x1 y0 y1 layer_id o s).1 = false →
        (addBox x0 x1 y0 y1 layer_id o s).2 = s)) ∧
    (((addBoxRGB x0 x1 y0 y1 r g b layer_id o s).1 = true ↔
        layer_id ∈ compositeOrder s) ∧
      ((addBoxRGB x0 x1 y0 y1 r g b layer_id o s).1 = false →
        (addBoxRGB x0 x1 y0 y1 r g b layer_id o s).2 = s)) :=
  ⟨drawShape_success_iff layer_id (Shape.circle x y radius) s,
   drawShape_success_iff layer_id (Shape.circleRGB x y radius r g b) s,
   drawShape_success_iff layer_id (Shape.box x0 x1 y0 y1) s,
   drawShape_success_iff layer_id (Shape.boxRGB x0 x1 y0 y1 r g b) s⟩

/-- Witness for C3: a circle into an existing layer returns true; a box
into a missing layer returns false and leaves the state unchanged. -/
theorem drawing_bool_returns_signal_success_witness :
    (addCircle 1 2 3 "circles" 1
      (runTrace [Op.opAddLayer "circles" 8 8 1] initialState)).1 = true ∧
    (addBox 0 1 0 1 "boxes" 1 initialState).2 = initialState :=
  ⟨(drawing_bool_returns_signal_success 1 2 0 0 0 0 3 0 0 0 1 "circles"
      (runTrace [Op.opAddLayer "circles" 8 8 1] initialState)).1.1.mpr
      (by decide),
   (drawing_bool_returns_signal_success 0 0 0 1 0 1 0 0 0 0 1 "boxes"
      initialState).2.2.1.2 (by decide)⟩

/-- C4: markPoint, addCircle and addBox draw into the layer named by their
layer_id argument (the shape is appended to the canvas of the first layer
of that name, everything else untouched), and the C++ default arguments
fall back to the implicit layers named points, circles and boxes. -/
theorem draw_ops_target_named_layer (x y x0 x1 y0 y1 u v f1 f2 f3 g1 g2 g3 : Nat)
    (radius o : ℚ) (layer_id : String) (s : ImageViewerState)
    (h : layer_id ∈ compositeOrder s) :
    drawsInto layer_id (Shape.circle x y radius) s.layer_map_
      (addCircle x y radius layer_id o s).2.layer_map_ ∧
    drawsInto layer_id (Shape.box x0 x1 y0 y1) s.layer_map_
      (addBox x0 x1 y0 y1 layer_id o s).2.layer_map_ ∧
    drawsInto layer_id (Shape.point u v f1 f2 f3 g1 g2 g3 radius) s.layer_map_
      (markPoint u v f1 f2 f3 g1 g2 g3 radius layer_id o s).layer_map_ ∧
    addCircleDefault x y radius s =
      addCircle x y radius addCircle_default_layer_id (1 / 2) s ∧
    addBoxDefault x0 x1 y0 y1 s =
      addBox x0 x1 y0 y1 addBox_default_layer_id (1 / 2) s ∧
    markPointDefault u v f1 f2 f3 g1 g2 g3 radius s =
      markPoint u v f1 f2 f3 g1 g2 g3 radius markPoint_default_layer_id 1 s ∧
    addCircle_default_layer_id = "circles" ∧
    addBox_default_layer_id = "boxes" ∧
    markPoint_default_layer_id = "points" :=
  ⟨drawShape_drawsInto h, drawShape_drawsInto h, drawShape_drawsInto h,
   rfl, rfl, rfl, rfl, rfl, rfl⟩

/-- Witness for C4: a circle drawn with layer name L lands in the layer
named L of a registry that has it. -/
theorem draw_ops_target_named_layer_witness :
    drawsInto "L" (Shape.circle 1 2 3)
      (runTrace [Op.opAddLayer "L" 4 4 1] initialState).layer_map_
      ((addCircle 1 2 3 "L" 1
        (runTrace [Op.opAddLayer "L" 4 4 1] initialState)).2.layer_map_) :=
  (draw_ops_target_named_layer 1 2 0 1 0 1 0 0 0 0 0 0 0 0 3 1 "L"
    (runTrace [Op.opAddLayer "L" 4 4 1] initialState) (by decide)).1

/-- C5: delivering vtkCommand ExitEvent to ExitCallback Execute sets the
stopped flag, terminates the interactor loop, and wasStopped returns true
afterwards; any other event id leaves the state unchanged. -/
theorem exit_callback_sets_stopped_and_terminates (s : ImageViewerState)
    (event_id : Nat) :
    (ExitCallback.Execute vtkExitEvent s).stopped_ = true ∧
    (ExitCallback.Execute vtkExitEvent s).interactor_terminated = true ∧
    wasStopped (ExitCallback.Execute vtkExitEvent s) = true ∧
    (event_id ≠ vtkExitEvent → ExitCallback.Execute event_id s = s) := by
  refine ⟨by simp [ExitCallback.Execute], by simp [ExitCallback.Execute],
    ?_, ?_⟩
  · simp [ExitCallback.Execute, wasStopped]
  · intro h
    simp [ExitCallback.Execute, h]

/-- Witness for C5: a MouseMoveEvent-like id leaves the fresh viewer
unchanged, while an ExitEvent makes wasStopped true. -/
theorem exit_callback_sets_stopped_and_terminates_witness :
    wasStopped (ExitCallback.Execute vtkExitEvent initialState) = true ∧
    ExitCallback.Execute 26 initialState = initialState :=
  ⟨(exit_callback_sets_stopped_and_terminates initialState 26).2.2.1,
   (exit_callback_sets_stopped_and_terminates initialState 26).2.2.2
     (by decide)⟩

/-- C6 counterexample: nothing clamps the opacity argument; an addLayer
call with opacity 2 produces a reachable state whose registered layer has
an opacity outside the closed interval between 0 and 1. -/
theorem layer_opacity_escapes_unit_interval :
    ∃ l ∈ (runTrace [Op.opAddLayer "a" 1 1 2] initialState).layer_map_,
      ¬ (0 ≤ l.opacity ∧ l.opacity ≤ 1) :=
  ⟨⟨[], "a", 2⟩, by decide, by decide⟩

/-- C6 (amended): every registered layer carries the opacity the creating
addLayer call passed, so when every opacity passed to addLayer along the
trace lies in the closed interval between 0 and 1, every layer of the
resulting registry has its opacity in that interval. -/
theorem layer_opacity_in_unit_interval_of_callers (ops : List Op)
    (h : ∀ (lid : String) (w hh : Int) (o : ℚ),
      Op.opAddLayer lid w hh o ∈ ops → 0 ≤ o ∧ o ≤ 1) :
    ∀ l ∈ (runTrace ops initialState).layer_map_,
      0 ≤ l.opacity ∧ l.opacity ≤ 1 :=
  runTrace_opacity ops initialState (by simp [initialState]) h

/-- Witness for the amended C6: a single addLayer with opacity 1 yields a
layer whose opacity lies in the interval. -/
theorem layer_opacity_in_unit_interval_of_callers_witness :
    0 ≤ (Layer.mk [] "a" 1).opacity ∧ (Layer.mk [] "a" 1).opacity ≤ 1 :=
  layer_opacity_in_unit_interval_of_callers [Op.opAddLayer "a" 1 1 1]
    (by
      intro lid w hh o hmem
      have he := List.mem_singleton.mp hmem
      injection he with h1 h2 h3 h4
      subst h4
      decide)
    (Layer.mk [] "a" 1) (by decide)

/-- C7: registering a plain function pointer with a cookie equals
registering the bound handler described by the spec, and publishing any
event afterwards invokes the handler synchronously after all earlier
subscribers, with that same event and that same cookie. -/
theorem register_ptr_callback_equals_bound {A C : Type}
    (ksig : Signal KeyboardEvent A) (msig : Signal MouseEvent A)
    (kcb : KeyboardEvent → C → A) (mcb : MouseEvent → C → A) (cookie : C)
    (ke : KeyboardEvent) (me : MouseEvent) :
    registerKeyboardCallbackPtr ksig kcb cookie =
      registerCallbackBoundSpec ksig kcb cookie ∧
    registerMouseCallbackPtr msig mcb cookie =
      registerCallbackBoundSpec msig mcb cookie ∧
    Signal.publish (registerKeyboardCallbackPtr ksig kcb cookie) ke =
      Signal.publish ksig ke ++ [kcb ke cookie] ∧
    Signal.publish (registerMouseCallbackPtr msig mcb cookie) me =
      Signal.publish msig me ++ [mcb me cookie] := by
  refine ⟨rfl, rfl, ?_, ?_⟩ <;>
    simp [registerKeyboardCallbackPtr, registerMouseCallbackPtr,
      Signal.publish, Signal.connect, registerCallbackBoundSpec]

/-- C8: showFloatImage and showShortImage build the 8-bit RGB base image
from pixel values clamped to the closed range between min_value and
max_value: values below min_value are treated as min_value, values above
max_value as max_value, in-range values pass through. -/
theorem show_images_clamp_to_min_max (colormap : ℚ → ℚ × ℚ × ℚ)
    (grayscale : Bool) (fdata : List ℚ) (fmin fmax : ℚ)
    (sdata : List Nat) (smin smax : Nat)
    (hf : fmin ≤ fmax) (hs : smin ≤ smax) :
    (showFloatImageConvert colormap grayscale fmin fmax fdata =
      fdata.map (fun v => pixelToRGB colormap grayscale
        (scaleTo8bit fmin fmax (clampFloatPixel fmin fmax v)))) ∧
    (∀ v ∈ fdata,
      (fmin ≤ clampFloatPixel fmin fmax v ∧
        clampFloatPixel fmin fmax v ≤ fmax) ∧
      (v < fmin → clampFloatPixel fmin fmax v = fmin) ∧
      (fmax < v → clampFloatPixel fmin fmax v = fmax) ∧
      (fmin ≤ v → v ≤ fmax → clampFloatPixel fmin fmax v = v)) ∧
    (showShortImageConvert colormap grayscale smin smax sdata =
      sdata.map (fun v => pixelToRGB colormap grayscale
        (scaleTo8bit (smin : ℚ) (smax : ℚ)
          ((clampShortPixel smin smax v : ℚ))))) ∧
    (∀ v ∈ sdata,
      (smin ≤ clampShortPixel smin smax v ∧
        clampShortPixel smin smax v ≤ smax) ∧
      (v < smin → clampShortPixel smin smax v = smin) ∧
      (smax < v → clampShortPixel smin smax v = smax) ∧
      (smin ≤ v → v ≤ smax → clampShortPixel smin smax v = v)) :=
  ⟨rfl, fun v _ => clampFloatPixel_spec fmin fmax v hf, rfl,
   fun v _ => clampShortPixel_spec smin smax v hs⟩

/-- Witness for C8: a float pixel 2 with range 0 to 1 is clamped to 1; a
short pixel 1 with range 3 to 5 is clamped to 3. -/
theorem show_images_clamp_to_min_max_witness :
    clampFloatPixel 0 1 2 = 1 ∧ clampShortPixel 3 5 1 = 3 := by
  have h := show_images_clamp_to_min_max (fun c => (c, c, c)) true [2] 0 1
    [1] 3 5 (by norm_num) (by norm_num)
  exact ⟨(h.2.1 2 (by simp)).2.2.1 (by norm_num),
    (h.2.2.2 1 (by simp)).2.1 (by norm_num)⟩

/-- C9: wasStopped returns true whenever the internal image_viewer_ handle
is null, independently of the stopped flag; when the handle is non-null it
returns exactly the stopped flag. -/
theorem wasStopped_true_of_null_viewer (s : ImageViewerState) :
    (s.image_viewer_ = false → wasStopped s = true) ∧
    (s.image_viewer_ = true → wasStopped s = s.stopped_) := by
  constructor <;> intro h <;> simp [wasStopped, h]

/-- Witness for C9: with a null handle and the stopped flag still false,
wasStopped is already true. -/
theorem wasStopped_true_of_null_viewer_witness :
    wasStopped ⟨[], false, false, false⟩ = true :=
  (wasStopped_true_of_null_viewer ⟨[], false, false, false⟩).1 rfl

/-- C10: ExitMainLoopTimerCallback Execute terminates the interactor loop
exactly for a TimerEvent whose call_data timer id equals the stored
right_timer_id, touching nothing else of the state; every other event id
and every non-matching timer id leave the state unchanged. -/
theorem exit_timer_callback_only_matching_timer
    (cb : ExitMainLoopTimerCallback) (s : ImageViewerState)
    (event_id : Nat) (call_data : Int) :
    (event_id = vtkTimerEvent → call_data = cb.right_timer_id →
      ExitMainLoopTimerCallback.Execute cb event_id call_data s =
        { s with interactor_terminated := true }) ∧
    (event_id ≠ vtkTimerEvent →
      ExitMainLoopTimerCallback.Execute cb event_id call_data s = s) ∧
    (call_data ≠ cb.right_timer_id →
      ExitMainLoopTimerCallback.Execute cb event_id call_data s = s) := by
  refine ⟨?_, ?_, ?_⟩
  · intro h1 h2
    simp [ExitMainLoopTimerCallback.Execute, h1, h2]
  · intro h
    simp [ExitMainLoopTimerCallback.Execute, h]
  · intro h
    by_cases h1 : event_id = vtkTimerEvent
    · simp [ExitMainLoopTimerCallback.Execute, h1, h]
    · simp [ExitMainLoopTimerCallback.Execute, h1]

/-- Witness for C10: with right_timer_id 5, a TimerEvent carrying 5
terminates the loop; a non-timer event or a TimerEvent carrying 4 changes
nothing. -/
theorem exit_timer_callback_only_matching_timer_witness :
    ExitMainLoopTimerCallback.Execute ⟨5⟩ vtkTimerEvent 5 initialState =
      { initialState with interactor_terminated := true } ∧
    ExitMainLoopTimerCallback.Execute ⟨5⟩ 2 5 initialState = initialState ∧
    ExitMainLoopTimerCallback.Execute ⟨5⟩ vtkTimerEvent 4 initialState =
      initialState :=
  ⟨(exit_timer_callback_only_matching_timer ⟨5⟩ initialState vtkTimerEvent 5).1
      rfl rfl,
   (exit_timer_callback_only_matching_timer ⟨5⟩ initialState 2 5).2.1
      (by decide),
   (exit_timer_callback_only_matching_timer ⟨5⟩ initialState vtkTimerEvent 4).2.2
      (by decide)⟩

end PCLImageViewer
